import Mathlib

/-!
Verification of the fan-speed controller `simple_fansd.py`.

The source program is embedded shallowly:
* temperatures are either a machine integer (Python `int`) or the
  positive-infinity float sentinel, modelled by the inductive `Temp`;
* the outcome of each external `subprocess` invocation (success,
  non-zero exit, or timeout — the latter two indistinguishable to the
  caller, which only sees `False`) is passed in as a `Bool`;
* the `main_loop` body is modelled as a pure transition function `tick`
  on the controller state `(fan_speed, slow_down_interval_count)`,
  iterated over a list of per-tick inputs by `run`.
-/

namespace SimpleFansd

/-- `MAX_FAN_SPEED = 64` (a literal in the source). -/
def MAX_FAN_SPEED : Int := 64

/-- A temperature value as produced by `get_temp`: a Python `int`, or the
float sentinel `_MAXIUM_TEMP = float("inf")`. -/
inductive Temp where
  | int : Int → Temp
  | posInf : Temp
deriving DecidableEq, Repr

/-- Python comparison `temp < n` for `temp : int | float` with
`float("inf")` never less than any integer. -/
def Temp.ltInt : Temp → Int → Bool
  | .int m, n => m < n
  | .posInf, _ => false

/-- Python comparison `temp > n`, with `float("inf")` greater than every
integer. -/
def Temp.gtInt : Temp → Int → Bool
  | .int m, n => n < m
  | .posInf, _ => true

/-- `temp_fan_speed_curve` from the source: the `if/elif` chain
`temp > 0 and temp < 50000 → 20`, `elif temp < 61000 → 32`,
`elif temp < 66000 → 48`, `else → MAX_FAN_SPEED`. -/
def temp_fan_speed_curve (temp : Temp) : Int :=
  if temp.gtInt 0 && temp.ltInt 50000 then 20
  else if temp.ltInt 61000 then 32
  else if temp.ltInt 66000 then 48
  else MAX_FAN_SPEED

/-- `get_temp` from the source, with the result of the `int(...)` parse
attempt passed in: `some n` when the sensor text parsed as the integer
`n`, `none` when `int(...)` raised `ValueError` (non-integer content),
in which case the function returns the `_MAXIUM_TEMP` sentinel. -/
def get_temp (parsed : Option Int) : Temp :=
  match parsed with
  | some n => .int n
  | none => .posInf

/-- Result of `ipmitool_set_fan_speed`, recording everything observable:
the returned boolean, whether the second invocation (speed set) was
attempted, and the (clamped) speed value embedded in that second
command. -/
structure SetFanSpeedResult where
  returned : Bool
  speed_set_attempted : Bool
  speed_sent : Int
deriving DecidableEq, Repr

/-- `ipmitool_set_fan_speed` from the source. `DEFAULT` is the
configured `DEFAULT_FAN_SPEED`; `aOk` and `bOk` are the outcomes of the
two `_subprocess_call` invocations (enable-manual-mode, then set-speed).
The clamp, the early `return False` when (a) fails, and the final
result all follow the source line by line. -/
def ipmitool_set_fan_speed (DEFAULT : Int) (fan_speed : Int)
    (aOk bOk : Bool) : SetFanSpeedResult :=
  let fs := if fan_speed > MAX_FAN_SPEED || fan_speed < DEFAULT
            then MAX_FAN_SPEED else fan_speed
  if !aOk then ⟨false, false, fs⟩
  else if bOk then ⟨true, true, fs⟩
  else ⟨false, true, fs⟩

/-- The mutable state of `main_loop`: the local variables `fan_speed`
and `slow_down_interval_count`. -/
structure LoopState where
  fan_speed : Int
  slow_down_interval_count : Int
deriving DecidableEq, Repr

/-- The initial state of `main_loop`: `fan_speed = DEFAULT_FAN_SPEED`,
`slow_down_interval_count = SLOW_DOWN_INTERVAL_COUNT`. -/
def initState (DEFAULT SLOW : Int) : LoopState := ⟨DEFAULT, SLOW⟩

/-- One iteration of the `while True` body of `main_loop`, given the
target speed `new_fan_speed` computed by the curve and the boolean
`bmcOk` that `ipmitool_set_fan_speed` would return (the source discards
that return value, so `bmcOk` is unused — exactly as in the code).
`SLOW` is the configured `SLOW_DOWN_INTERVAL_COUNT`. Returns the next
state and `some v` when `ipmitool_set_fan_speed v` was invoked. -/
def tick (SLOW : Int) (s : LoopState) (new_fan_speed : Int)
    (bmcOk : Bool) : LoopState × Option Int :=
  if new_fan_speed > s.fan_speed then
    (⟨new_fan_speed, SLOW⟩, some new_fan_speed)
  else if new_fan_speed < s.fan_speed && s.slow_down_interval_count < 0 then
    (⟨new_fan_speed, SLOW⟩, some new_fan_speed)
  else if new_fan_speed < s.fan_speed && s.slow_down_interval_count ≥ 0 then
    (⟨s.fan_speed, s.slow_down_interval_count - 1⟩, none)
  else
    (s, none)

/-- Iterate `tick` over a list of `(target, bmcOk)` inputs, collecting
the sequence of values passed to `ipmitool_set_fan_speed`. -/
def run (SLOW : Int) (s : LoopState) :
    List (Int × Bool) → LoopState × List Int
  | [] => (s, [])
  | (t, ok) :: rest =>
    let step := tick SLOW s t ok
    let tail := run SLOW step.1 rest
    (tail.1, step.2.toList ++ tail.2)

/-- The after-tick `fan_speed` trace of a run (all BMC calls assumed to
report success; the value is unused by `tick` anyway). -/
def speedTrace (SLOW : Int) (s : LoopState) : List Int → List Int
  | [] => []
  | t :: rest =>
    let s' := (tick SLOW s t true).1
    s'.fan_speed :: speedTrace SLOW s' rest

/-! ## General lemmas about the transition function -/

/-- A tick either applies the target (setting the state to
`⟨target, SLOW⟩` and invoking the BMC), defers a slow-down (decrementing
the countdown), or does nothing. -/
lemma tick_cases (SLOW : Int) (s : LoopState) (t : Int) (ok : Bool) :
    tick SLOW s t ok = (⟨t, SLOW⟩, some t) ∨
    tick SLOW s t ok
      = (⟨s.fan_speed, s.slow_down_interval_count - 1⟩, none) ∨
    tick SLOW s t ok = (s, none) := by
  unfold tick
  split_ifs <;> simp

/-- The last element of `a :: l` with default `d` is the last element of
`l` with default `a`. -/
lemma getLast_getD_cons (a d : Int) (l : List Int) :
    ((a :: l).getLast?).getD d = (l.getLast?).getD a := by
  induction l generalizing a with
  | nil => rfl
  | cons b l ih =>
    rw [List.getLast?_cons_cons,
      List.getLast?_eq_getLast_of_ne_nil (List.cons_ne_nil b l)]
    rfl

/-- The loop state after a run has `fan_speed` equal to the last value
passed to `ipmitool_set_fan_speed`, or the starting `fan_speed` when no
call was made. -/
lemma run_fan_speed_getLast (SLOW : Int) (ticks : List (Int × Bool))
    (s : LoopState) :
    (run SLOW s ticks).1.fan_speed
      = ((run SLOW s ticks).2.getLast?).getD s.fan_speed := by
  induction ticks generalizing s with
  | nil => simp [run]
  | cons p rest ih =>
    obtain ⟨t, ok⟩ := p
    rcases tick_cases SLOW s t ok with h | h | h <;>
      simp [run, h, Option.toList, getLast_getD_cons, ih]

/-- A single tick keeps the countdown within `[-1, SLOW]` when it starts
there and `0 ≤ SLOW`. -/
lemma tick_countdown_bound (SLOW : Int) (hS : 0 ≤ SLOW) (s : LoopState)
    (t : Int) (ok : Bool) (h1 : -1 ≤ s.slow_down_interval_count)
    (h2 : s.slow_down_interval_count ≤ SLOW) :
    -1 ≤ (tick SLOW s t ok).1.slow_down_interval_count ∧
    (tick SLOW s t ok).1.slow_down_interval_count ≤ SLOW := by
  unfold tick
  split_ifs <;> simp_all <;> omega

/-- A tick leaves `fan_speed` at the target or unchanged. -/
lemma tick_fan_speed_cases (SLOW : Int) (s : LoopState) (t : Int)
    (ok : Bool) :
    (tick SLOW s t ok).1.fan_speed = t ∨
    (tick SLOW s t ok).1.fan_speed = s.fan_speed := by
  rcases tick_cases SLOW s t ok with h | h | h <;> simp [h]

/-- The curve only ever returns 20, 32, 48 or 64. -/
lemma curve_mem_image (t : Temp) :
    temp_fan_speed_curve t ∈ ([20, 32, 48, 64] : List Int) := by
  cases t with
  | int n =>
    unfold temp_fan_speed_curve
    split_ifs <;> simp [MAX_FAN_SPEED]
  | posInf => simp [temp_fan_speed_curve, Temp.gtInt, Temp.ltInt,
      MAX_FAN_SPEED]

/-- After any run whose targets all come from the curve, `fan_speed` is
either the starting speed or a curve value. -/
lemma run_curve_fan_mem (SLOW : Int) (temps : List Temp) (s : LoopState) :
    (run SLOW s
        (temps.map (fun t => (temp_fan_speed_curve t, true)))).1.fan_speed
      = s.fan_speed ∨
    (run SLOW s
        (temps.map (fun t => (temp_fan_speed_curve t, true)))).1.fan_speed
      ∈ ([20, 32, 48, 64] : List Int) := by
  induction temps generalizing s with
  | nil => left; simp [run]
  | cons t rest ih =>
    have hrun : (run SLOW s
        ((t :: rest).map (fun u => (temp_fan_speed_curve u, true)))).1
        = (run SLOW (tick SLOW s (temp_fan_speed_curve t) true).1
            (rest.map (fun u => (temp_fan_speed_curve u, true)))).1 := by
      simp [run]
    rw [hrun]
    rcases ih (tick SLOW s (temp_fan_speed_curve t) true).1 with h | h
    · rw [h]
      rcases tick_fan_speed_cases SLOW s (temp_fan_speed_curve t) true
          with h2 | h2
      · right; rw [h2]; exact curve_mem_image t
      · left; exact h2
    · right; exact h

/-! ## Claim theorems -/

/-- C1 (counterexample): the claim that `speed_for(0) = 64` and
`speed_for(-5) = 64` is false on the code: a temperature ≤ 0 fails the
first band's `temp > 0` guard but satisfies the second band's
`elif temp < 61000`, so the curve returns 32 at 0 and at -5, not
`MAX_FAN_SPEED`. -/
theorem curve_zero_counterexample :
    temp_fan_speed_curve (.int 0) = 32 ∧
    temp_fan_speed_curve (.int (-5)) = 32 ∧
    ¬(temp_fan_speed_curve (.int 0) = 64 ∧
      temp_fan_speed_curve (.int (-5)) = 64) := by
  decide

/-- C1 (amended): `temp_fan_speed_curve` returns 20 when
`0 < temp < 50000`, 32 when `temp ≤ 0` or `50000 ≤ temp < 61000`, 48
when `61000 ≤ temp < 66000`, and 64 when `temp ≥ 66000` or
`temp = +∞`; in particular `speed_for(0) = 32` and
`speed_for(-5) = 32`. -/
theorem curve_bands_amended (n : Int) :
    ((0 < n ∧ n < 50000) → temp_fan_speed_curve (.int n) = 20) ∧
    ((n ≤ 0 ∨ (50000 ≤ n ∧ n < 61000)) →
      temp_fan_speed_curve (.int n) = 32) ∧
    ((61000 ≤ n ∧ n < 66000) → temp_fan_speed_curve (.int n) = 48) ∧
    (66000 ≤ n → temp_fan_speed_curve (.int n) = 64) ∧
    temp_fan_speed_curve .posInf = 64 := by
  refine ⟨?_, ?_, ?_, ?_, rfl⟩ <;>
  · intro h
    simp only [temp_fan_speed_curve, Temp.gtInt, Temp.ltInt,
      MAX_FAN_SPEED]
    split_ifs <;> simp_all <;> omega

/-- C1 (witness for the amended theorem) evaluated across the bands. -/
theorem curve_bands_amended_witness :
    temp_fan_speed_curve (.int 1) = 20 ∧
    temp_fan_speed_curve (.int 0) = 32 ∧
    temp_fan_speed_curve (.int 50000) = 32 ∧
    temp_fan_speed_curve (.int 61000) = 48 ∧
    temp_fan_speed_curve (.int 66000) = 64 ∧
    temp_fan_speed_curve .posInf = 64 :=
  ⟨(curve_bands_amended 1).1 (by decide),
   (curve_bands_amended 0).2.1 (Or.inl (by decide)),
   (curve_bands_amended 50000).2.1 (Or.inr (by decide)),
   (curve_bands_amended 61000).2.2.1 (by decide),
   (curve_bands_amended 66000).2.2.2.1 (by decide),
   (curve_bands_amended 0).2.2.2.2⟩

/-- C2 (counterexample): from `current = 32`, `N = 3`, the target
sequence `[32, 20, 20, 20, 20]` yields the after-tick speeds
`[32, 32, 32, 32, 32]`, not `[32, 32, 32, 20]`: no BMC call is made on
any of the five ticks, because the countdown (3) must be decremented
four times before it goes negative. -/
theorem hysteresis_trace_counterexample :
    speedTrace 3 ⟨32, 3⟩ [32, 20, 20, 20, 20] = [32, 32, 32, 32, 32] ∧
    speedTrace 3 ⟨32, 3⟩ [32, 20, 20, 20, 20] ≠ [32, 32, 32, 20] ∧
    (run 3 ⟨32, 3⟩ ([32, 20, 20, 20, 20].map (fun t => (t, true)))).2
      = [] := by
  decide

/-- C2 (amended): from `current = 32`, `N = 3`, a tick sequence with
targets `[32, 20, 20, 20, 20, 20]` yields the applied speed sequence
`[32, 32, 32, 32, 32, 20]`: the slow-down to 20 is applied exactly on
the 6th tick (the 5th consecutive lower-target tick), once the countdown
has gone negative (it reaches -1 after the 5th tick), and on no earlier
tick. -/
theorem hysteresis_trace_amended :
    speedTrace 3 ⟨32, 3⟩ [32, 20, 20, 20, 20, 20]
      = [32, 32, 32, 32, 32, 20] ∧
    (run 3 ⟨32, 3⟩ ([32, 20, 20, 20, 20].map (fun t => (t, true)))).1
      = ⟨32, -1⟩ ∧
    (run 3 ⟨32, 3⟩
        ([32, 20, 20, 20, 20, 20].map (fun t => (t, true)))).2
      = [20] := by
  decide

/-- C3: on every applied change the tick sets the state to
`⟨target, N⟩`; the tick is independent of the boolean returned by
`ipmitool_set_fan_speed`; and after any run from the initial state,
`fan_speed` equals the last value passed to `ipmitool_set_fan_speed`
(or `DEFAULT_FAN_SPEED` when no call was ever made). -/
theorem fan_speed_tracks_last_bmc_call (SLOW DEFAULT : Int)
    (ticks : List (Int × Bool)) :
    (∀ (s : LoopState) (t : Int) (ok ok' : Bool),
        tick SLOW s t ok = tick SLOW s t ok') ∧
    (∀ (s : LoopState) (t : Int) (ok : Bool) (v : Int),
        (tick SLOW s t ok).2 = some v →
        (tick SLOW s t ok).1 = ⟨v, SLOW⟩) ∧
    (run SLOW (initState DEFAULT SLOW) ticks).1.fan_speed
      = (((run SLOW (initState DEFAULT SLOW) ticks).2).getLast?).getD
          DEFAULT := by
  refine ⟨fun s t ok ok' => rfl, ?_, ?_⟩
  · intro s t ok v hv
    rcases tick_cases SLOW s t ok with h | h | h <;>
      rw [h] at hv ⊢ <;> simp_all
  · exact run_fan_speed_getLast SLOW ticks (initState DEFAULT SLOW)

/-- C3 (witness): concrete instance with one applied speed-up. -/
theorem fan_speed_tracks_last_bmc_call_witness :
    tick 3 ⟨20, 3⟩ 64 true = tick 3 ⟨20, 3⟩ 64 false ∧
    (tick 3 ⟨20, 3⟩ 64 true).1 = ⟨64, 3⟩ ∧
    (run 3 (initState 20 3) [(64, true)]).1.fan_speed
      = (((run 3 (initState 20 3) [(64, true)]).2).getLast?).getD 20 :=
  ⟨(fan_speed_tracks_last_bmc_call 3 20 [(64, true)]).1 ⟨20, 3⟩ 64
      true false,
   (fan_speed_tracks_last_bmc_call 3 20 [(64, true)]).2.1 ⟨20, 3⟩ 64
      true 64 (by decide),
   (fan_speed_tracks_last_bmc_call 3 20 [(64, true)]).2.2⟩

/-- C4: `ipmitool_set_fan_speed` returns true iff both external
invocations succeed, and the second invocation is attempted exactly
when the first one (enable manual mode) succeeded. -/
theorem set_fan_speed_result_iff (DEFAULT fan_speed : Int)
    (aOk bOk : Bool) :
    (ipmitool_set_fan_speed DEFAULT fan_speed aOk bOk).returned
      = (aOk && bOk) ∧
    (ipmitool_set_fan_speed DEFAULT fan_speed aOk bOk).speed_set_attempted
      = aOk := by
  cases aOk <;> cases bOk <;> simp [ipmitool_set_fan_speed]

/-- C5: a tick whose target equals the current speed performs no BMC
invocation and leaves the state unchanged, and any number of
consecutive equal-target ticks is a no-op. -/
theorem equal_target_tick_noop (SLOW : Int) (s : LoopState) (ok : Bool) :
    tick SLOW s s.fan_speed ok = (s, none) ∧
    ∀ k : Nat,
      run SLOW s (List.replicate k (s.fan_speed, true)) = (s, []) := by
  have h1 : ∀ ok' : Bool, tick SLOW s s.fan_speed ok' = (s, none) := by
    intro ok'
    unfold tick
    split_ifs <;> simp_all
  refine ⟨h1 ok, ?_⟩
  intro k
  induction k with
  | zero => rfl
  | succ m ih => simp [List.replicate_succ, run, h1, ih]

/-- C6: any applied speed-up sets the state to `⟨target, N⟩` (full
countdown reset); concretely, from `current = 32`, `N = 3`, targets
`[32, 20, 20, 48, 20, 20, 20, 20]` leave the speed at 48 through all
four lower-target ticks after the reset at the `48` event (state after
the `48` tick is `⟨48, 3⟩`), and the drop to 20 is applied only on the
5th lower-target tick after the reset — no earlier than the 4th. -/
theorem speed_up_resets_countdown :
    (∀ (SLOW : Int) (s : LoopState) (t : Int) (ok : Bool),
        t > s.fan_speed → tick SLOW s t ok = (⟨t, SLOW⟩, some t)) ∧
    (run 3 ⟨32, 3⟩ ([32, 20, 20, 48].map (fun t => (t, true)))).1
      = ⟨48, 3⟩ ∧
    speedTrace 3 ⟨32, 3⟩ [32, 20, 20, 48, 20, 20, 20, 20]
      = [32, 32, 32, 48, 48, 48, 48, 48] ∧
    speedTrace 3 ⟨32, 3⟩ [32, 20, 20, 48, 20, 20, 20, 20, 20]
      = [32, 32, 32, 48, 48, 48, 48, 48, 20] := by
  refine ⟨?_, by decide, by decide, by decide⟩
  intro SLOW s t ok h
  unfold tick
  rw [if_pos h]

/-- C6 (witness): a concrete applied speed-up resetting the countdown. -/
theorem speed_up_resets_countdown_witness :
    tick 3 ⟨32, 1⟩ 48 true = (⟨48, 3⟩, some 48) :=
  speed_up_resets_countdown.1 3 ⟨32, 1⟩ 48 true (by decide)

/-- C7: when the sensor text does not parse as an integer, `get_temp`
returns the positive-infinity sentinel, and the curve maps it to
`MAX_FAN_SPEED = 64`. -/
theorem parse_failure_gives_max_speed :
    get_temp none = Temp.posInf ∧
    temp_fan_speed_curve (get_temp none) = MAX_FAN_SPEED ∧
    temp_fan_speed_curve (get_temp none) = 64 :=
  ⟨rfl, rfl, rfl⟩

/-- C8: with `DEFAULT_FAN_SPEED = 20` and `MAX_FAN_SPEED = 64`,
`set_fan_speed(5)` clamps to 64 and behaves identically to
`set_fan_speed(64)` for every combination of external-invocation
outcomes: same return value, same attempted invocations, same speed in
the issued command. -/
theorem set_fan_speed_clamps_low :
    ∀ (aOk bOk : Bool),
      ipmitool_set_fan_speed 20 5 aOk bOk
        = ipmitool_set_fan_speed 20 64 aOk bOk := by
  decide

/-- C9: for `N ≥ 0`, after any run from the initial state the countdown
stays in the closed interval `[-1, N]`. -/
theorem countdown_bounded (SLOW DEFAULT : Int) (hS : 0 ≤ SLOW)
    (ticks : List (Int × Bool)) :
    -1 ≤ (run SLOW (initState DEFAULT SLOW)
            ticks).1.slow_down_interval_count ∧
    (run SLOW (initState DEFAULT SLOW)
        ticks).1.slow_down_interval_count ≤ SLOW := by
  have key : ∀ (rest : List (Int × Bool)) (s : LoopState),
      -1 ≤ s.slow_down_interval_count →
      s.slow_down_interval_count ≤ SLOW →
      -1 ≤ (run SLOW s rest).1.slow_down_interval_count ∧
      (run SLOW s rest).1.slow_down_interval_count ≤ SLOW := by
    intro rest
    induction rest with
    | nil => intro s h1 h2; simpa [run] using ⟨h1, h2⟩
    | cons p rest' ih =>
      intro s h1 h2
      obtain ⟨t, ok⟩ := p
      have hb := tick_countdown_bound SLOW hS s t ok h1 h2
      simpa [run] using ih (tick SLOW s t ok).1 hb.1 hb.2
  exact key ticks (initState DEFAULT SLOW) (by simp [initState]; omega)
    (by simp [initState])

/-- C9 (witness): `N = 3`, two concrete ticks. -/
theorem countdown_bounded_witness :
    (0 : Int) ≤ 3 ∧
    (-1 ≤ (run 3 (initState 20 3)
            [(20, true), (64, true)]).1.slow_down_interval_count ∧
     (run 3 (initState 20 3)
        [(20, true), (64, true)]).1.slow_down_interval_count ≤ 3) :=
  ⟨by decide, countdown_bounded 3 20 (by decide) [(20, true), (64, true)]⟩

/-- C10: after any run from the initial state whose targets all come
from `temp_fan_speed_curve`, `fan_speed` is the initial
`DEFAULT_FAN_SPEED` or one of the curve values 20, 32, 48, 64. -/
theorem fan_speed_in_curve_image (SLOW DEFAULT : Int)
    (temps : List Temp) :
    (run SLOW (initState DEFAULT SLOW)
        (temps.map (fun t => (temp_fan_speed_curve t, true)))).1.fan_speed
      ∈ ([DEFAULT, 20, 32, 48, 64] : List Int) := by
  rcases run_curve_fan_mem SLOW temps (initState DEFAULT SLOW) with h | h
  · rw [h]; simp [initState]
  · exact List.mem_cons_of_mem DEFAULT h

end SimpleFansd
